import Mathlib

/-!
Shallow embedding of the gphotosdl browser-automation service (`main.go`).

The source contains two variants of the program.  The first variant
("variant A") tests authentication with a URL-prefix match and runs a
download sequence without network-response interception; the second
variant ("variant B") tests authentication with exact URL equality and
correlates a network response before triggering the download.  Both are
embedded below: `DownloadRunA` embeds the first variant's `Download`,
`DownloadRun` the second's; `authSuccessA` / `authSuccessB` embed the two
authentication predicates.

External effects (the rod browser transport, the filesystem) are
represented by an environment record holding the outcome of each
effectful step, so the control flow of the Go functions is replayed
exactly over those outcomes.
-/

namespace Gphotosdl

/-- `gphotosURL` constant: the authenticated landing address. -/
def gphotosURL : String := "https://photos.google.com/"

/-- `gphotoURLReal` constant (identical in both variants). -/
def gphotoURLReal : String := "https://photos.google.com/photo/"

/-- `gphotoURL` constant of variant A: the direct photo link base. -/
def gphotoURL_A : String := "https://photos.google.com/photo/"

/-- `gphotoURL` constant of variant B: the redirect-through photo link base. -/
def gphotoURL : String := "https://photos.google.com/lr/photo/"

/-- Character-list prefix test, the model of Go `strings.HasPrefix` pre-part. -/
def isPreChars : List Char → List Char → Bool
  | [], _ => true
  | _ :: _, [] => false
  | a :: as, b :: bs => a == b && isPreChars as bs

/-- Model of Go `strings.HasPrefix(s, pre)`. -/
def strHasPre (s pre : String) : Bool := isPreChars pre.data s.data

/-- Variant A's authentication success test:
`strings.HasPrefix(info.URL, gphotosURL)`. -/
def authSuccessA (url : String) : Bool := strHasPre url gphotosURL

/-- Variant B's authentication success test: `info.URL == gphotosURL`. -/
def authSuccessB (url : String) : Bool := decide (url = gphotosURL)

/-- Error returned by `startBrowser` when the bounded poll loop exhausts
("browser is not logged in - rerun with the -login flag"). -/
inductive StartError where
  | notLoggedIn
deriving DecidableEq, Repr

/--
The authentication poll loop of `startBrowser` in bounded (non-login)
mode.  `poll i` is the result of `g.page.Info()` on iteration `i`
(`none` = the transient Info error, which the loop logs and retries);
`fuel` is the number of remaining loop iterations; `polls` counts the
`Info` calls performed.  Returns `(authenticated, total poll count)`.
-/
def authLoop (poll : Nat → Option String) (isAuth : String → Bool) :
    Nat → Nat → Nat → Bool × Nat
  | _, 0, polls => (false, polls)
  | tryIdx, fuel + 1, polls =>
    match poll tryIdx with
    | none => authLoop poll isAuth (tryIdx + 1) fuel (polls + 1)
    | some url =>
      if isAuth url then (true, polls + 1)
      else authLoop poll isAuth (tryIdx + 1) fuel (polls + 1)

/-- The bounded mode runs `for try := 0; try < 60; try++`. -/
def boundedTries : Nat := 60

/-- The authentication phase of `startBrowser` in bounded mode: run the
poll loop for 60 iterations; if still unauthenticated return the
not-logged-in error. -/
def startBrowserBoundedAuth (poll : Nat → Option String) (isAuth : String → Bool) :
    Except StartError Unit :=
  if (authLoop poll isAuth 0 boundedTries 0).1 then Except.ok ()
  else Except.error StartError.notLoggedIn

/-- `poll i` never matches the authentication predicate (either the Info
call fails or the URL it reports is not accepted). -/
def noMatch (isAuth : String → Bool) (o : Option String) : Prop :=
  ∀ url, o = some url → isAuth url = false

/-- A `proto.NetworkResponseReceived` observation: response URL and HTTP status. -/
structure NetworkResponse where
  url : String
  status : Int
deriving DecidableEq, Repr

/-- The `EachEvent` handler of variant B's `Download`: accept a response
whose URL extends `gphotoURLReal` or `gphotoURL`. -/
def matchesPhotoResource (u : String) : Bool :=
  strHasPre u gphotoURLReal || strHasPre u gphotoURL

/-- `netResponse` after `waitNetwork()` returns: the first observed event
accepted by the handler. -/
def firstMatch (events : List NetworkResponse) : Option NetworkResponse :=
  events.find? (fun e => matchesPhotoResource e.url)

/-- The errors `Download` can return, one constructor per `return ""` site.
`upstreamError` is the only one wrapping an `httpError`. -/
inductive DlError where
  | openTabFailed (photoID cause : String)
  | waiterSetupFailed (cause : String)
  | navigateFailed (photoID cause : String)
  | pageLoadFailed (cause : String)
  | noNetworkResponse
  | upstreamError (status : Int)
  | keypressFailed (cause : String)
  | statFailed (cause : String)
deriving DecidableEq, Repr

/-- The `Error()` string of each error, following the `fmt.Errorf` format
verbs of the source (`%q` rendered as plain quoting, `%w` as the wrapped
cause's message; `httpError.Error()` is "HTTP Error %d"). -/
def DlError.message : DlError → String
  | .openTabFailed id c => "failed to open browser tab for photo \"" ++ id ++ "\": " ++ c
  | .waiterSetupFailed c => "failed to set up download waiter: " ++ c
  | .navigateFailed id c => "failed to navigate to photo \"" ++ id ++ "\": " ++ c
  | .pageLoadFailed c => "gphoto page load: " ++ c
  | .noNetworkResponse => "did not receive the expected network response for the photo"
  | .upstreamError s => "gphoto fetch failed: HTTP Error " ++ toString s
  | .keypressFailed c => "failed to send download keypress: " ++ c
  | .statFailed c => "download failed, file not found: " ++ c

/-- The status code `getID` writes for a failed download:
`errors.As(err, &h)` recovers the `httpError` wrapped only by
`upstreamError`; every other error yields `http.StatusInternalServerError`. -/
def DlError.httpStatus : DlError → Int
  | .upstreamError s => s
  | _ => 500

/-- Model of `filepath.Join(dir, name)` on the already-clean paths the
program uses (a temp directory and a transport-assigned GUID). -/
def filepathJoin (dir name : String) : String :=
  if dir = "" then name else dir ++ "/" ++ name

/-- Which tab a page operation was performed on: the persistent home tab
(`g.page`) or the per-request ephemeral tab (`page`). -/
inductive TabRef where
  | home
  | ephemeral
deriving DecidableEq, Repr

instance exceptDecEq {ε α : Type} [DecidableEq ε] [DecidableEq α] :
    DecidableEq (Except ε α) := fun x y =>
  match x, y with
  | .error a, .error b =>
    if h : a = b then .isTrue (by rw [h]) else .isFalse (by intro hh; cases hh; exact h rfl)
  | .error _, .ok _ => .isFalse (by intro hh; cases hh)
  | .ok _, .error _ => .isFalse (by intro hh; cases hh)
  | .ok a, .ok b =>
    if h : a = b then .isTrue (by rw [h]) else .isFalse (by intro hh; cases hh; exact h rfl)

/-- Environment for variant B's `Download`: the outcome of each effectful
step (`Except.error c` = the step failed with cause `c`), the network
events observed before `waitNetwork()` returned, and the GUID named by
the download-completion event. -/
structure DlEnv where
  openTab : Except String Unit
  navigate : Except String Unit
  waitLoad : Except String Unit
  netEvents : List NetworkResponse
  keypress : Except String Unit
  downloadGUID : String
  stat : Except String Unit
deriving DecidableEq, Repr

/-- Environment for variant A's `Download` (it sets up the download waiter
with `page.WaitDownload()`, which can fail, and intercepts no network
events). -/
structure DlEnvA where
  openTab : Except String Unit
  waiterSetup : Except String Unit
  navigate : Except String Unit
  waitLoad : Except String Unit
  keypress : Except String Unit
  downloadGUID : String
  stat : Except String Unit
deriving DecidableEq, Repr

/-- Observable outcome of one `Download` call: the returned value, whether
the ephemeral tab was opened and closed (the deferred `page.Close()`),
which tab the `WaitLoad` call was issued on (if reached), and the URL
passed to `page.Navigate` (if reached). -/
structure DlOutcome where
  result : Except DlError String
  tabOpened : Bool
  tabClosed : Bool
  waitLoadTab : Option TabRef
  navigatedURL : Option String
deriving DecidableEq, Repr

/--
Variant B's `Download` (the network-intercepting one), replayed over an
environment.  Control flow follows the source line by line: lock (modelled
separately by `DlStep`), build `url := gphotoURL + photoID`, open a tab
(deferred close covers every later exit), register the network filter,
navigate, `g.page.WaitLoad()` — note: the HOME tab —, wait for the first
matching network event, fail if none or if its status is not 200, send the
download keypress, join the completion GUID onto the download directory,
and stat the file.
-/
def DownloadRun (downloadDir photoID : String) (env : DlEnv) : DlOutcome :=
  let url := gphotoURL ++ photoID
  match env.openTab with
  | .error c =>
    { result := .error (.openTabFailed photoID c), tabOpened := false, tabClosed := false,
      waitLoadTab := none, navigatedURL := none }
  | .ok _ =>
    match env.navigate with
    | .error c =>
      { result := .error (.navigateFailed photoID c), tabOpened := true, tabClosed := true,
        waitLoadTab := none, navigatedURL := some url }
    | .ok _ =>
      match env.waitLoad with
      | .error c =>
        { result := .error (.pageLoadFailed c), tabOpened := true, tabClosed := true,
          waitLoadTab := some .home, navigatedURL := some url }
      | .ok _ =>
        match firstMatch env.netEvents with
        | none =>
          { result := .error .noNetworkResponse, tabOpened := true, tabClosed := true,
            waitLoadTab := some .home, navigatedURL := some url }
        | some ev =>
          if ev.status ≠ 200 then
            { result := .error (.upstreamError ev.status), tabOpened := true, tabClosed := true,
              waitLoadTab := some .home, navigatedURL := some url }
          else
            match env.keypress with
            | .error c =>
              { result := .error (.keypressFailed c), tabOpened := true, tabClosed := true,
                waitLoadTab := some .home, navigatedURL := some url }
            | .ok _ =>
              match env.stat with
              | .error c =>
                { result := .error (.statFailed c), tabOpened := true, tabClosed := true,
                  waitLoadTab := some .home, navigatedURL := some url }
              | .ok _ =>
                { result := .ok (filepathJoin downloadDir env.downloadGUID),
                  tabOpened := true, tabClosed := true,
                  waitLoadTab := some .home, navigatedURL := some url }

/-- Variant B's `Download` return value. -/
def Download (downloadDir photoID : String) (env : DlEnv) : Except DlError String :=
  (DownloadRun downloadDir photoID env).result

/--
Variant A's `Download`: open a tab (deferred close), set up the download
waiter on the ephemeral page, navigate, `page.WaitLoad()` — the EPHEMERAL
tab —, send the download keypress, join the completion GUID onto the
download directory, and stat the file.  No network interception.
-/
def DownloadRunA (downloadDir photoID : String) (env : DlEnvA) : DlOutcome :=
  let url := gphotoURL_A ++ photoID
  match env.openTab with
  | .error c =>
    { result := .error (.openTabFailed photoID c), tabOpened := false, tabClosed := false,
      waitLoadTab := none, navigatedURL := none }
  | .ok _ =>
    match env.waiterSetup with
    | .error c =>
      { result := .error (.waiterSetupFailed c), tabOpened := true, tabClosed := true,
        waitLoadTab := none, navigatedURL := none }
    | .ok _ =>
      match env.navigate with
      | .error c =>
        { result := .error (.navigateFailed photoID c), tabOpened := true, tabClosed := true,
          waitLoadTab := none, navigatedURL := some url }
      | .ok _ =>
        match env.waitLoad with
        | .error c =>
          { result := .error (.pageLoadFailed c), tabOpened := true, tabClosed := true,
            waitLoadTab := some .ephemeral, navigatedURL := some url }
        | .ok _ =>
          match env.keypress with
          | .error c =>
            { result := .error (.keypressFailed c), tabOpened := true, tabClosed := true,
              waitLoadTab := some .ephemeral, navigatedURL := some url }
          | .ok _ =>
            match env.stat with
            | .error c =>
              { result := .error (.statFailed c), tabOpened := true, tabClosed := true,
                waitLoadTab := some .ephemeral, navigatedURL := some url }
            | .ok _ =>
              { result := .ok (filepathJoin downloadDir env.downloadGUID),
                tabOpened := true, tabClosed := true,
                waitLoadTab := some .ephemeral, navigatedURL := some url }

/-- The status code of the HTTP response `getID` produces for a photo
request: 200 when `Download` succeeds (the file is served), otherwise the
status derived from the error. -/
def getIDStatus (downloadDir photoID : String) (env : DlEnv) : Int :=
  match Download downloadDir photoID env with
  | .ok _ => 200
  | .error e => e.httpStatus

/-- Phase of one `Download` caller with respect to the `g.mu` mutex:
not yet called, blocked in `mu.Lock()`, inside the critical section
(the navigate/intercept/trigger/await sequence), or returned
(the deferred `mu.Unlock()` has run). -/
inductive ProcPhase where
  | idle
  | waiting
  | critical
  | done
deriving DecidableEq, Repr

/-- Global state of `n` potential `Download` callers sharing `g.mu`:
the current lock holder (if any) and each caller's phase. -/
structure LockState (n : Nat) where
  holder : Option (Fin n)
  phase : Fin n → ProcPhase

/-- Initially the mutex is free and nobody has called `Download`. -/
def initState (n : Nat) : LockState n :=
  { holder := none, phase := fun _ => ProcPhase.idle }

/-- Interleaving semantics of `Download`'s use of `g.mu`: a caller starts
(reaches `mu.Lock()`), acquires the mutex only when it is free (entering
the download sequence), and releases it when it returns (the deferred
`mu.Unlock()`), which only the holder in its critical section can do. -/
inductive DlStep (n : Nat) : LockState n → LockState n → Prop where
  | start (s : LockState n) (p : Fin n) (h : s.phase p = ProcPhase.idle) :
      DlStep n s { holder := s.holder, phase := Function.update s.phase p ProcPhase.waiting }
  | acquire (s : LockState n) (p : Fin n) (hw : s.phase p = ProcPhase.waiting)
      (hfree : s.holder = none) :
      DlStep n s { holder := some p, phase := Function.update s.phase p ProcPhase.critical }
  | release (s : LockState n) (p : Fin n) (hc : s.phase p = ProcPhase.critical) :
      DlStep n s { holder := none, phase := Function.update s.phase p ProcPhase.done }

/-- States reachable from the initial state by interleaved `Download` calls. -/
def Reach (n : Nat) (s : LockState n) : Prop :=
  Relation.ReflTransGen (DlStep n) (initState n) s

/-- Every caller in its critical section holds the mutex. -/
def ExclusiveInv {n : Nat} (s : LockState n) : Prop :=
  ∀ p : Fin n, s.phase p = ProcPhase.critical → s.holder = some p

/-- `sub` occurs as a contiguous substring of `s` (Go
`strings.Contains`-style containment, used to state that an error message
mentions the photo identifier). -/
def containsStr (s sub : String) : Prop := sub.data <:+: s.data

instance decContainsStr (s sub : String) : Decidable (containsStr s sub) :=
  inferInstanceAs (Decidable (sub.data <:+: s.data))

/-! ### Concrete inputs used to instantiate the theorems -/

/-- A response on the direct photo link with status 200. -/
def evOk : NetworkResponse :=
  { url := "https://photos.google.com/photo/AF1QipN", status := 200 }

/-- A response on the redirect-through photo link with status 404. -/
def ev404 : NetworkResponse :=
  { url := "https://photos.google.com/lr/photo/AF1QipN", status := 404 }

/-- An all-steps-succeed environment observing a 200 response. -/
def envOk : DlEnv :=
  { openTab := .ok (), navigate := .ok (), waitLoad := .ok (),
    netEvents := [evOk], keypress := .ok (), downloadGUID := "f.jpg", stat := .ok () }

/-- Like `envOk` but the matched response carries status 404. -/
def env404 : DlEnv := { envOk with netEvents := [ev404] }

/-- Like `envOk` but no network event is observed at all. -/
def envNoNet : DlEnv := { envOk with netEvents := [] }

/-- Like `envOk` but the `WaitLoad` call fails. -/
def envLoadFail : DlEnv := { envOk with waitLoad := .error "timeout" }

/-- Like `envOk` but opening the tab fails. -/
def envTabFail : DlEnv := { envOk with openTab := .error "boom" }

/-- An all-steps-succeed environment for variant A. -/
def envOkA : DlEnvA :=
  { openTab := .ok (), waiterSetup := .ok (), navigate := .ok (), waitLoad := .ok (),
    keypress := .ok (), downloadGUID := "f.jpg", stat := .ok () }

/-- A home-tab URL that never leaves the account chooser. -/
def badURL : String := "https://accounts.google.com/signin"

/-- A poll sequence whose URL never matches either authentication predicate. -/
def pollBad : Nat → Option String := fun _ => some badURL

/-- A URL under the photos origin but not equal to it: extends `gphotosURL`
strictly, so the prefix test accepts it and the equality test rejects it. -/
def disagreeURL : String := "https://photos.google.com/u/0/"

/-- One caller (index 0) has reached `mu.Lock()`. -/
def lockW1 : LockState 1 :=
  { holder := none,
    phase := Function.update (fun _ => ProcPhase.idle) 0 ProcPhase.waiting }

/-- Caller 0 has acquired the mutex and is inside the download sequence. -/
def lockW2 : LockState 1 :=
  { holder := some 0, phase := Function.update lockW1.phase 0 ProcPhase.critical }

/-! ### Theorems -/

/-- C1: if during `Download` every effectful step succeeds, the first
network event matching the resource-base predicate carries status 200, and
the download-completion event names file `F = env.downloadGUID` whose path
under `downloadDir` stats successfully, then `Download photoID` returns
`filepathJoin downloadDir F` and no error. -/
theorem download_success_path (downloadDir photoID : String) (env : DlEnv)
    (ev : NetworkResponse)
    (hOpen : env.openTab = .ok ()) (hNav : env.navigate = .ok ())
    (hLoad : env.waitLoad = .ok ()) (hMatch : firstMatch env.netEvents = some ev)
    (hStatus : ev.status = 200) (hKey : env.keypress = .ok ())
    (hStat : env.stat = .ok ()) :
    Download downloadDir photoID env = .ok (filepathJoin downloadDir env.downloadGUID) := by
  unfold Download DownloadRun
  rw [hOpen, hNav, hLoad, hMatch, hKey, hStat]
  simp [hStatus]

/-- C1 witness: the success path evaluated at a concrete environment. -/
theorem download_success_path_witness :
    firstMatch envOk.netEvents = some evOk ∧
    Download "/tmp/dl" "AF1QipN" envOk = .ok (filepathJoin "/tmp/dl" "f.jpg") :=
  ⟨by decide,
   download_success_path "/tmp/dl" "AF1QipN" envOk evOk rfl rfl rfl (by decide) rfl rfl rfl⟩

/-- C2: if the matched network event carries a status `s ≠ 200`, `Download`
returns the error wrapping `httpError s` (`upstreamError s`), and the
`getID` handler writes status `s` to the HTTP response. -/
theorem download_upstream_status (downloadDir photoID : String) (env : DlEnv)
    (ev : NetworkResponse)
    (hOpen : env.openTab = .ok ()) (hNav : env.navigate = .ok ())
    (hLoad : env.waitLoad = .ok ()) (hMatch : firstMatch env.netEvents = some ev)
    (hStatus : ev.status ≠ 200) :
    Download downloadDir photoID env = .error (.upstreamError ev.status) ∧
    getIDStatus downloadDir photoID env = ev.status := by
  have hD : Download downloadDir photoID env = .error (.upstreamError ev.status) := by
    unfold Download DownloadRun
    rw [hOpen, hNav, hLoad, hMatch]
    simp [hStatus]
  exact ⟨hD, by unfold getIDStatus; rw [hD]; rfl⟩

/-- C2 witness: a matched 404 response evaluated concretely. -/
theorem download_upstream_status_witness :
    firstMatch env404.netEvents = some ev404 ∧ ev404.status ≠ 200 ∧
    Download "/tmp/dl" "AF1QipN" env404 = .error (.upstreamError 404) ∧
    getIDStatus "/tmp/dl" "AF1QipN" env404 = 404 :=
  ⟨by decide, by decide,
   download_upstream_status "/tmp/dl" "AF1QipN" env404 ev404 rfl rfl rfl (by decide) (by decide)⟩

/-- C3 counterexample: when no network response matches, `Download` does
fail with the resource-not-found error, but the HTTP handler answers the
generic server error 500 — not 404 ("not found") as claimed — because that
error wraps no `httpError`. -/
theorem noresponse_counterexample :
    Download "/tmp/dl" "AF1QipN" envNoNet = .error .noNetworkResponse ∧
    getIDStatus "/tmp/dl" "AF1QipN" envNoNet = 500 ∧
    getIDStatus "/tmp/dl" "AF1QipN" envNoNet ≠ 404 := by
  exact ⟨by decide, by decide, by decide⟩

/-- C3 amended: if no network response matching either resource-base
predicate is observed, `Download` fails with the resource-not-found error
and the HTTP response carries the generic server-error status 500 (the
error carries no upstream HTTP status, so it is not reflected as 404). -/
theorem noresponse_returns_500 (downloadDir photoID : String) (env : DlEnv)
    (hOpen : env.openTab = .ok ()) (hNav : env.navigate = .ok ())
    (hLoad : env.waitLoad = .ok ()) (hNone : firstMatch env.netEvents = none) :
    Download downloadDir photoID env = .error .noNetworkResponse ∧
    getIDStatus downloadDir photoID env = 500 := by
  have hD : Download downloadDir photoID env = .error .noNetworkResponse := by
    unfold Download DownloadRun
    rw [hOpen, hNav, hLoad, hNone]
  exact ⟨hD, by unfold getIDStatus; rw [hD]; rfl⟩

/-- C3 amended witness: evaluated at a concrete environment with no
matching network event. -/
theorem noresponse_returns_500_witness :
    Download "/tmp/dl" "AF1QipN" envNoNet = .error .noNetworkResponse ∧
    getIDStatus "/tmp/dl" "AF1QipN" envNoNet = 500 :=
  noresponse_returns_500 "/tmp/dl" "AF1QipN" envNoNet rfl rfl rfl rfl

/-- C10: `Download` applies no validation or escaping to the photo
identifier: for every string `photoID`, once the tab is open the URL
passed to `page.Navigate` is exactly the raw concatenation
`gphotoURL ++ photoID`. -/
theorem raw_url_concat (downloadDir photoID : String) (env : DlEnv)
    (hOpen : env.openTab = .ok ()) :
    (DownloadRun downloadDir photoID env).navigatedURL = some (gphotoURL ++ photoID) := by
  unfold DownloadRun
  rw [hOpen]
  dsimp only
  repeat first
  | rfl
  | split

/-- C10 witness: the empty identifier and one containing `/`, `?` and `#`
are concatenated verbatim into the navigation target. -/
theorem raw_url_concat_witness :
    (DownloadRun "/tmp/dl" "" envOk).navigatedURL = some (gphotoURL ++ "") ∧
    (DownloadRun "/tmp/dl" "a/b?c#d" envOk).navigatedURL = some (gphotoURL ++ "a/b?c#d") :=
  ⟨raw_url_concat "/tmp/dl" "" envOk rfl, raw_url_concat "/tmp/dl" "a/b?c#d" envOk rfl⟩

/-- C4: in both source variants, whenever the ephemeral tab is successfully
opened, the deferred `page.Close()` runs before `Download` returns on every
exit path, successful or failing. -/
theorem tab_closed_on_exit (downloadDir photoID : String) (envA : DlEnvA) (env : DlEnv)
    (hA : envA.openTab = .ok ()) (hB : env.openTab = .ok ()) :
    (DownloadRunA downloadDir photoID envA).tabClosed = true ∧
    (DownloadRun downloadDir photoID env).tabClosed = true := by
  constructor
  · unfold DownloadRunA
    rw [hA]
    dsimp only
    repeat first
    | rfl
    | split
  · unfold DownloadRun
    rw [hB]
    dsimp only
    repeat first
    | rfl
    | split

/-- C4 witness: tab closure evaluated on a failing run (404 upstream) and a
succeeding run. -/
theorem tab_closed_on_exit_witness :
    (DownloadRunA "/tmp/dl" "AF1QipN" envOkA).tabClosed = true ∧
    (DownloadRun "/tmp/dl" "AF1QipN" env404).tabClosed = true :=
  tab_closed_on_exit "/tmp/dl" "AF1QipN" envOkA env404 rfl rfl

/-- Helper: an exhausted authentication poll loop performs one poll per
remaining iteration and reports failure, provided no poll ever matches. -/
theorem authLoop_exhaust (poll : Nat → Option String) (isAuth : String → Bool)
    (h : ∀ i, noMatch isAuth (poll i)) :
    ∀ fuel tryIdx polls, authLoop poll isAuth tryIdx fuel polls = (false, polls + fuel) := by
  intro fuel
  induction fuel with
  | zero => intro tryIdx polls; rfl
  | succ f ih =>
    intro tryIdx polls
    unfold authLoop
    cases hp : poll tryIdx with
    | none =>
      rw [ih (tryIdx + 1) (polls + 1)]
      simp [Nat.add_assoc, Nat.add_comm, Nat.add_left_comm]
    | some url =>
      dsimp only
      rw [h tryIdx url hp]
      simp only [Bool.false_eq_true, if_false]
      rw [ih (tryIdx + 1) (polls + 1)]
      simp [Nat.add_assoc, Nat.add_comm, Nat.add_left_comm]

/-- C5: in bounded (non-login) mode, if the home tab's URL never matches
the authentication predicate on any poll, the loop performs exactly 60
polls — no more, no fewer — and `startBrowser` returns the not-logged-in
error; this holds for both source variants' predicates. -/
theorem auth_bounded_exactly_60 (pollA pollB : Nat → Option String)
    (hA : ∀ i, noMatch authSuccessA (pollA i))
    (hB : ∀ i, noMatch authSuccessB (pollB i)) :
    authLoop pollA authSuccessA 0 boundedTries 0 = (false, 60) ∧
    startBrowserBoundedAuth pollA authSuccessA = .error .notLoggedIn ∧
    authLoop pollB authSuccessB 0 boundedTries 0 = (false, 60) ∧
    startBrowserBoundedAuth pollB authSuccessB = .error .notLoggedIn := by
  have h1 := authLoop_exhaust pollA authSuccessA hA boundedTries 0 0
  have h2 := authLoop_exhaust pollB authSuccessB hB boundedTries 0 0
  refine ⟨h1, ?_, h2, ?_⟩
  · unfold startBrowserBoundedAuth
    rw [h1]
    simp
  · unfold startBrowserBoundedAuth
    rw [h2]
    simp

/-- C5 witness: a poll stream stuck on the account chooser exhausts both
variants' loops at exactly 60 polls. -/
theorem auth_bounded_exactly_60_witness :
    authLoop pollBad authSuccessA 0 boundedTries 0 = (false, 60) ∧
    startBrowserBoundedAuth pollBad authSuccessA = .error .notLoggedIn ∧
    authLoop pollBad authSuccessB 0 boundedTries 0 = (false, 60) ∧
    startBrowserBoundedAuth pollBad authSuccessB = .error .notLoggedIn :=
  auth_bounded_exactly_60 pollBad pollBad
    (fun i url h => by
      have hu : badURL = url := by simpa [pollBad] using h
      rw [← hu]; decide)
    (fun i url h => by
      have hu : badURL = url := by simpa [pollBad] using h
      rw [← hu]; decide)

/-- C6 (divergence witness): in variant B, the post-navigation wait for
"load complete" is issued on the persistent HOME tab (`g.page.WaitLoad()`),
while variant A issues it on the per-request ephemeral tab — so variant B
violates the claimed "all steps on the ephemeral tab". -/
theorem waitload_tab_divergence (downloadDir photoID : String) (env : DlEnv) (envA : DlEnvA)
    (hOpen : env.openTab = .ok ()) (hNav : env.navigate = .ok ())
    (hOpenA : envA.openTab = .ok ()) (hWA : envA.waiterSetup = .ok ())
    (hNavA : envA.navigate = .ok ()) :
    (DownloadRun downloadDir photoID env).waitLoadTab = some TabRef.home ∧
    (DownloadRunA downloadDir photoID envA).waitLoadTab = some TabRef.ephemeral := by
  constructor
  · unfold DownloadRun
    rw [hOpen, hNav]
    dsimp only
    repeat first
    | rfl
    | split
  · unfold DownloadRunA
    rw [hOpenA, hWA, hNavA]
    dsimp only
    repeat first
    | rfl
    | split

/-- C6 witness: the divergence evaluated at a concrete failing input. -/
theorem waitload_tab_divergence_witness :
    (DownloadRun "/tmp/dl" "AF1QipN" envOk).waitLoadTab = some TabRef.home ∧
    (DownloadRunA "/tmp/dl" "AF1QipN" envOkA).waitLoadTab = some TabRef.ephemeral :=
  waitload_tab_divergence "/tmp/dl" "AF1QipN" envOk envOkA rfl rfl rfl rfl rfl

/-- C8: the two source variants' authentication-success predicates are not
extensionally equal: a URL extending the landing address strictly is
accepted by variant A's prefix test and rejected by variant B's equality
test. -/
theorem auth_variants_disagree :
    authSuccessA disagreeURL = true ∧ authSuccessB disagreeURL = false ∧
    authSuccessA ≠ authSuccessB := by
  refine ⟨by decide, by decide, fun h => ?_⟩
  have h1 : authSuccessA disagreeURL = true := by decide
  have h2 : authSuccessB disagreeURL = false := by decide
  rw [h, h2] at h1
  exact Bool.false_ne_true h1

/-- Helper: the mutual-exclusion invariant holds in the initial state. -/
theorem exclusiveInv_init (n : Nat) : ExclusiveInv (initState n) := by
  intro p hp
  exact ProcPhase.noConfusion hp

/-- Helper: every `DlStep` transition preserves the mutual-exclusion
invariant. -/
theorem exclusiveInv_step {n : Nat} {s t : LockState n} (hst : DlStep n s t)
    (hs : ExclusiveInv s) : ExclusiveInv t := by
  cases hst with
  | start p h =>
    intro q hq
    dsimp only at hq ⊢
    by_cases hqp : q = p
    · subst hqp
      rw [Function.update_same] at hq
      exact ProcPhase.noConfusion hq
    · rw [Function.update_noteq hqp] at hq
      exact hs q hq
  | acquire p hw hfree =>
    intro q hq
    dsimp only at hq ⊢
    by_cases hqp : q = p
    · subst hqp; rfl
    · rw [Function.update_noteq hqp] at hq
      have hh := hs q hq
      rw [hfree] at hh
      exact Option.noConfusion hh
  | release p hc =>
    intro q hq
    dsimp only at hq ⊢
    by_cases hqp : q = p
    · subst hqp
      rw [Function.update_same] at hq
      exact ProcPhase.noConfusion hq
    · rw [Function.update_noteq hqp] at hq
      have h1 := hs q hq
      have h2 := hs p hc
      rw [h1] at h2
      exact absurd (Option.some.inj h2) hqp

/-- Helper: the invariant holds in every reachable state. -/
theorem reach_exclusiveInv {n : Nat} {s : LockState n} (h : Reach n s) :
    ExclusiveInv s := by
  unfold Reach at h
  induction h with
  | refl => exact exclusiveInv_init n
  | tail hsteps hstep ih => exact exclusiveInv_step hstep ih

/-- C7: for any number of concurrent `Download` callers sharing `g.mu`, in
every reachable interleaving state at most one caller is inside the
navigate/intercept/trigger/await critical section: any two callers in
phase `critical` are equal. -/
theorem mutual_exclusion (n : Nat) (s : LockState n) (hs : Reach n s) (p q : Fin n)
    (hp : s.phase p = ProcPhase.critical) (hq : s.phase q = ProcPhase.critical) :
    p = q := by
  have hinv := reach_exclusiveInv hs
  have h1 := hinv p hp
  have h2 := hinv q hq
  rw [h1] at h2
  exact Option.some.inj h2

/-- C7 witness: after caller 0 starts and acquires the mutex, mutual
exclusion applies to it concretely. -/
theorem mutual_exclusion_witness :
    Reach 1 lockW2 ∧ lockW2.phase 0 = ProcPhase.critical ∧ ((0 : Fin 1) = 0) := by
  have s1 : DlStep 1 (initState 1) lockW1 := DlStep.start (initState 1) 0 rfl
  have s2 : DlStep 1 lockW1 lockW2 :=
    DlStep.acquire lockW1 0 (by simp [lockW1]) rfl
  have hreach : Reach 1 lockW2 :=
    Relation.ReflTransGen.tail (Relation.ReflTransGen.single s1) s2
  have hc : lockW2.phase 0 = ProcPhase.critical := by simp [lockW2]
  exact ⟨hreach, hc, mutual_exclusion 1 lockW2 hreach 0 0 hc hc⟩

/-- C9 counterexample: a page-load failure aborts `Download` with an error
whose message does not contain the photo identifier, refuting "every step
failure wraps the photo identifier". -/
theorem error_without_id_counterexample :
    Download "/tmp/dl" "abc123" envLoadFail = .error (.pageLoadFailed "timeout") ∧
    ¬ containsStr (DlError.pageLoadFailed "timeout").message "abc123" :=
  ⟨by decide, by decide⟩

/-- C9 amended: only the open-tab and navigate step failures wrap the photo
identifier into the error returned by `Download`; the later steps (page
load, network wait, upstream status, keypress, stat) return errors without
it — the identifier is attached only to the log record by the handler. -/
theorem early_errors_contain_id (downloadDir photoID : String) (env : DlEnv) (c : String) :
    (env.openTab = .error c →
      Download downloadDir photoID env = .error (.openTabFailed photoID c) ∧
      containsStr (DlError.openTabFailed photoID c).message photoID) ∧
    (env.openTab = .ok () → env.navigate = .error c →
      Download downloadDir photoID env = .error (.navigateFailed photoID c) ∧
      containsStr (DlError.navigateFailed photoID c).message photoID) := by
  constructor
  · intro h
    refine ⟨by unfold Download DownloadRun; rw [h], ?_⟩
    exact ⟨"failed to open browser tab for photo \"".data, ("\": " ++ c).data, by
      simp [DlError.message, containsStr, String.data_append, List.append_assoc]⟩
  · intro h1 h2
    refine ⟨by unfold Download DownloadRun; rw [h1, h2], ?_⟩
    exact ⟨"failed to navigate to photo \"".data, ("\": " ++ c).data, by
      simp [DlError.message, containsStr, String.data_append, List.append_assoc]⟩

/-- C9 amended witness: the open-tab failure evaluated concretely. -/
theorem early_errors_contain_id_witness :
    Download "/tmp/dl" "abc123" envTabFail = .error (.openTabFailed "abc123" "boom") ∧
    containsStr (DlError.openTabFailed "abc123" "boom").message "abc123" :=
  (early_errors_contain_id "/tmp/dl" "abc123" envTabFail "boom").1 rfl

end Gphotosdl
